import Mathlib

/-!
Verification of the `server` package of the blocky DNS proxy
(`src/server/server.go`) against its specification.

The file shallowly embeds the data model and the operations of
`server.go`: `NewServer`, `createParallelUpstreamResolver`,
`printConfiguration`, `OnRequest` and `resolveClientIP`.  The
`resolver`, `config` and `util` packages are collaborators whose
sources are not part of the analysed tree; the few values taken from
them (stage constructors, the request/response envelopes, the
question-formatting helper) are modelled from the specification and
are marked as such in their doc comments.
-/

namespace Blocky

/-- A network IP address, modelled as its list of bytes (Go `net.IP`
is a byte slice; the Go `nil` slice is modelled as `Option.none` at
use sites). -/
abbrev IP := List Nat

/-- Transport-level peer address (Go `net.Addr`).  `udp` corresponds
to `*net.UDPAddr`, `tcp` to `*net.TCPAddr`; `other` stands for any
other implementation of the `net.Addr` interface.  The `ip` field of
`udp`/`tcp` is optional because a Go address value can carry a `nil`
IP slice. -/
inductive Addr : Type where
  | udp (ip : Option IP) (port : Nat) (zone : String)
  | tcp (ip : Option IP) (port : Nat) (zone : String)
  | other (network : String) (address : String)
deriving DecidableEq, Repr

/-- `resolveClientIP` (server.go lines 180-189): the client IP is the
`IP` field of a UDP or a TCP peer address, and the `nil` IP (here
`none`) for every other kind of address. -/
def resolveClientIP : Addr → Option IP
  | .udp ip _ _ => ip
  | .tcp ip _ _ => ip
  | .other _ _ => none

/-- Header of a DNS message (the `dns.MsgHdr` part of `dns.Msg` from
the wire-format library, which the spec treats as a given). -/
structure MsgHdr where
  id : Nat
  response : Bool
  opcode : Nat
  authoritative : Bool
  truncated : Bool
  recursionDesired : Bool
  recursionAvailable : Bool
  zero : Bool
  authenticatedData : Bool
  checkingDisabled : Bool
  rcode : Nat
deriving DecidableEq, Repr

/-- One question of a DNS query (name, type, class). -/
structure DNSQuestion where
  name : String
  qtype : Nat
  qclass : Nat
deriving DecidableEq, Repr

/-- A DNS message (`dns.Msg`): header, flags and record sections.
Resource records are opaque for this development and modelled as
strings. -/
structure Msg where
  msgHdr : MsgHdr
  compress : Bool
  question : List DNSQuestion
  answer : List String
  ns : List String
  extra : List String
deriving DecidableEq, Repr

/-- Modelled from the spec: `util.QuestionToString` (the `util`
package is not part of the analysed tree) produces the human-readable
logging form of the question section. -/
def QuestionToString (qs : List DNSQuestion) : String :=
  String.intercalate ", " (qs.map (fun q => q.name ++ " " ++ toString q.qtype))

/-- Modelled from the spec: the per-request logging context (the
fields attached in server.go lines 160-163). -/
structure LogCtx where
  question : String
  clientIP : Option IP
deriving DecidableEq, Repr

/-- Modelled from the spec: the request envelope `resolver.Request`
(client address, original query, logging context). -/
structure Request where
  clientIP : Option IP
  req : Msg
  log : LogCtx
deriving DecidableEq, Repr

/-- Modelled from the spec: the response envelope `resolver.Response`
(resolved message plus provenance metadata). -/
structure Response where
  res : Msg
  reason : String
deriving DecidableEq, Repr

/-- A configured upstream DNS target (`config.Upstream`): network,
host and port.  Immutable after construction. -/
structure Upstream where
  net : String
  host : String
  port : Nat
deriving DecidableEq, Repr

/-- The configuration consumed by `NewServer` (`config.Config`).  The
per-stage configuration blocks are opaque to the server package and
modelled as the diagnostic lines the corresponding stage reports. -/
structure Config where
  port : Nat
  clientLookup : List String
  queryLog : List String
  conditional : List String
  customDNS : List String
  blocking : List String
  upstreamExternalResolvers : List Upstream
deriving DecidableEq, Repr

/-- A resolver pipeline stage (interface `resolver.Resolver`, with
the optional `resolver.ChainedResolver` extension).  `chained` is a
chainable stage whose successor has been linked, `chainedNil` a
chainable stage whose successor pointer is still `nil`.  Modelled
from the spec: the terminal upstream resolver (`upstreamR`) and the
parallel best-resolver (`parallelBest`) implement only the base
capability and are not chainable. -/
inductive Resolver : Type where
  | chained (name : String) (config : List String) (next : Resolver)
  | chainedNil (name : String) (config : List String)
  | upstreamR (u : Upstream)
  | parallelBest (inner : List Resolver)

/-- Display name of a stage (Go logs the resolver with `%s`). -/
def resolverName : Resolver → String
  | .chained n _ _ => n
  | .chainedNil n _ => n
  | .upstreamR _ => "UpstreamResolver"
  | .parallelBest _ => "ParallelBestResolver"

/-- `Configuration()` of a stage: its human-readable diagnostic
lines.  Modelled from the spec for the two non-chainable stages,
whose diagnostic content the spec leaves unspecified. -/
def Configuration : Resolver → List String
  | .chained _ c _ => c
  | .chainedNil _ c => c
  | .upstreamR _ => []
  | .parallelBest _ => []

/-- Whether the stage implements the `resolver.ChainedResolver`
extension (the Go type assertion `res.(resolver.ChainedResolver)`). -/
def isChainable : Resolver → Bool
  | .chained _ _ _ => true
  | .chainedNil _ _ => true
  | .upstreamR _ => false
  | .parallelBest _ => false

/-- `GetNext()` of a chainable stage (`none` models the Go `nil`
successor reference). -/
def GetNext : Resolver → Option Resolver
  | .chained _ _ next => some next
  | _ => none

/-- `Next(resolver)`: link the stage to its successor.  On a
non-chainable stage there is no such method; the catch-all branch is
never exercised by `NewServer`. -/
def Resolver.Next : Resolver → Resolver → Resolver
  | .chained n c _, r => .chained n c r
  | .chainedNil n c, r => .chained n c r
  | s, _ => s

/-- Modelled from the spec: `resolver.NewClientNamesResolver` builds
the client name annotation stage, chainable, successor not yet set. -/
def NewClientNamesResolver (c : List String) : Resolver :=
  .chainedNil "ClientNamesResolver" c

/-- Modelled from the spec: `resolver.NewQueryLoggingResolver` builds
the query logging stage. -/
def NewQueryLoggingResolver (c : List String) : Resolver :=
  .chainedNil "QueryLoggingResolver" c

/-- Modelled from the spec: `resolver.NewConditionalUpstreamResolver`
builds the conditional upstream routing stage. -/
def NewConditionalUpstreamResolver (c : List String) : Resolver :=
  .chainedNil "ConditionalUpstreamResolver" c

/-- Modelled from the spec: `resolver.NewCustomDNSResolver` builds
the custom DNS records stage. -/
def NewCustomDNSResolver (c : List String) : Resolver :=
  .chainedNil "CustomDNSResolver" c

/-- Modelled from the spec: `resolver.NewBlockingResolver` builds the
blocking stage. -/
def NewBlockingResolver (c : List String) : Resolver :=
  .chainedNil "BlockingResolver" c

/-- Modelled from the spec: `resolver.NewCachingResolver` builds the
caching stage (it takes no configuration). -/
def NewCachingResolver : Resolver :=
  .chainedNil "CachingResolver" []

/-- Modelled from the spec: `resolver.NewUpstreamResolver` builds the
terminal resolver for one upstream target. -/
def NewUpstreamResolver (u : Upstream) : Resolver :=
  .upstreamR u

/-- Modelled from the spec: `resolver.NewParallelBestResolver`
composes the given member resolvers into the racing resolver; it is
inherently terminal and not chainable. -/
def NewParallelBestResolver (rs : List Resolver) : Resolver :=
  .parallelBest rs

/-- `createParallelUpstreamResolver` (server.go lines 101-113): one
configured upstream yields a lone `UpstreamResolver`; otherwise one
`UpstreamResolver` per entry is built, in slice order, and wrapped in
a `ParallelBestResolver`. -/
def createParallelUpstreamResolver (upstream : List Upstream) : Resolver :=
  if h : upstream.length = 1 then
    NewUpstreamResolver (upstream.get ⟨0, by omega⟩)
  else
    NewParallelBestResolver (upstream.map NewUpstreamResolver)

/-- The UDP or TCP listener record inside `Server` (only the fields
`NewServer` fills are modelled; the live socket is out of scope). -/
structure DNSServer where
  addr : String
  net : String
deriving DecidableEq, Repr

/-- The `Server` value produced by `NewServer`. -/
structure Server where
  udpServer : DNSServer
  tcpServer : DNSServer
  queryResolver : Resolver

/-- `NewServer` (server.go lines 28-80).  It constructs the stage
objects, links them in the fixed order of lines 59-64 and returns the
server together with the error value of the Go result pair, which is
always `nil` (`none`): no branch of the Go function returns a non-nil
error.  The in-place `Next` calls of the Go code are reproduced
tail-first, which yields the same final chain. -/
def NewServer (cfg : Config) : Server × Option String :=
  let udpServer : DNSServer := { addr := ":" ++ toString cfg.port, net := "udp" }
  let tcpServer : DNSServer := { addr := ":" ++ toString cfg.port, net := "tcp" }
  let clientNamesResolver := NewClientNamesResolver cfg.clientLookup
  let queryLoggingResolver := NewQueryLoggingResolver cfg.queryLog
  let conditionalUpstreamResolver := NewConditionalUpstreamResolver cfg.conditional
  let customDNSResolver := NewCustomDNSResolver cfg.customDNS
  let blacklistResolver := NewBlockingResolver cfg.blocking
  let cachingResolver := NewCachingResolver
  let parallelUpstreamResolver := createParallelUpstreamResolver cfg.upstreamExternalResolvers
  let cachingResolver := cachingResolver.Next parallelUpstreamResolver
  let blacklistResolver := blacklistResolver.Next cachingResolver
  let customDNSResolver := customDNSResolver.Next blacklistResolver
  let conditionalUpstreamResolver := conditionalUpstreamResolver.Next customDNSResolver
  let queryLoggingResolver := queryLoggingResolver.Next conditionalUpstreamResolver
  let clientNamesResolver := clientNamesResolver.Next queryLoggingResolver
  let queryResolver := clientNamesResolver
  ({ udpServer := udpServer, tcpServer := tcpServer, queryResolver := queryResolver }, none)

/-- The sequence of `Next` calls issued by `NewServer` (server.go
lines 59-64), as pairs (receiver stage, successor stage). -/
def newServerNextCalls : List (String × String) :=
  [("ClientNamesResolver", "QueryLoggingResolver"),
   ("QueryLoggingResolver", "ConditionalUpstreamResolver"),
   ("ConditionalUpstreamResolver", "CustomDNSResolver"),
   ("CustomDNSResolver", "BlockingResolver"),
   ("BlockingResolver", "CachingResolver"),
   ("CachingResolver", "ParallelUpstreamResolver")]

/-- The stages visited by the `printConfiguration` loop of server.go
lines 85-98, starting at the given (non-nil) resolver: every visited
stage is listed; after a chainable stage the loop continues with its
successor when that successor is non-nil; a non-chainable stage or a
nil successor ends the loop. -/
def walk : Resolver → List Resolver
  | .chained n c next => .chained n c next :: walk next
  | r => [r]

/-- The log lines the `printConfiguration` loop emits for one visited
stage: the stage banner followed by its `Configuration()` lines
(server.go lines 87-91). -/
def stageLog (r : Resolver) : List String :=
  ("-> resolver: " ++ resolverName r) :: (Configuration r).map (fun c => "     " ++ c)

/-- Direct transcription of the `printConfiguration` loop (server.go
lines 85-98): log the banner and configuration lines of the current
stage; if it is chainable, continue with `GetNext()` (stopping when
that is `nil`), otherwise break. -/
def printConfigLoop : Resolver → List String
  | .chained n c next => stageLog (.chained n c next) ++ printConfigLoop next
  | .chainedNil n c => stageLog (.chainedNil n c)
  | .upstreamR u => stageLog (.upstreamR u)
  | .parallelBest rs => stageLog (.parallelBest rs)

/-- `printConfiguration` (server.go lines 82-99): the full list of
log lines. -/
def printConfiguration (s : Server) : List String :=
  "current configuration:" :: printConfigLoop s.queryResolver

/-- `mkRequest`: the `resolver.Request` that `OnRequest` constructs
for an inbound query (server.go lines 156-164). -/
def mkRequest (remoteAddr : Addr) (request : Msg) : Request :=
  let clientIP := resolveClientIP remoteAddr
  { clientIP := clientIP
    req := request
    log := { question := QuestionToString request.question, clientIP := clientIP } }

/-- What `OnRequest` writes back on the response writer: either a
resolved message (`w.WriteMsg`) or the standard protocol-level
failure indication for the query (`dns.HandleFailed`, a library
routine of the wire-format library). -/
inductive WriteAction : Type where
  | writeMsg (m : Msg)
  | handleFailed (request : Msg)
deriving DecidableEq, Repr

/-- `OnRequest` (server.go lines 153-178).  The dynamic behaviour of
`queryResolver.Resolve` lives in the resolver package, outside the
analysed tree, so it is passed in as a semantics `resolveSem`.  On a
resolve error the handler writes the standard failure indication for
the query; on success it sets the recursion-available flag of the
resolved message to the recursion-desired flag of the query and
writes that message. -/
def Server.OnRequest (resolveSem : Resolver → Request → Except String Response)
    (s : Server) (remoteAddr : Addr) (request : Msg) : WriteAction :=
  match resolveSem s.queryResolver (mkRequest remoteAddr request) with
  | .error _ => .handleFailed request
  | .ok response =>
      .writeMsg { response.res with msgHdr :=
        { response.res.msgHdr with recursionAvailable := request.msgHdr.recursionDesired } }

/-- The maximal prefix of linked chainable stages reachable from a
stage (the part of the chain the `printConfiguration` loop traverses
via `GetNext`). -/
def chainSpine : Resolver → List Resolver
  | .chained n c next => .chained n c next :: chainSpine next
  | _ => []

/-- The stage at which the chain walk comes to rest: the first stage,
following successor links, that is not a linked chainable stage. -/
def chainEnd : Resolver → Resolver
  | .chained _ _ next => chainEnd next
  | r => r

/-- Concrete configuration with zero upstream targets. -/
def cfg0 : Config :=
  { port := 53, clientLookup := [], queryLog := [], conditional := [],
    customDNS := [], blocking := [], upstreamExternalResolvers := [] }

/-- Concrete upstream target. -/
def u1 : Upstream := { net := "udp", host := "8.8.8.8", port := 53 }

/-- Second concrete upstream target. -/
def u2 : Upstream := { net := "tcp-tls", host := "1.1.1.1", port := 853 }

/-- Concrete query header with recursion desired set. -/
def hdr0 : MsgHdr :=
  { id := 42, response := false, opcode := 0, authoritative := false,
    truncated := false, recursionDesired := true, recursionAvailable := false,
    zero := false, authenticatedData := false, checkingDisabled := false,
    rcode := 0 }

/-- Concrete inbound query message. -/
def msg0 : Msg :=
  { msgHdr := hdr0, compress := false,
    question := [{ name := "example.com.", qtype := 1, qclass := 1 }],
    answer := [], ns := [], extra := [] }

/-- Concrete resolved message as a pipeline stage would return it. -/
def respMsg0 : Msg :=
  { msgHdr := { hdr0 with response := true }, compress := false,
    question := [{ name := "example.com.", qtype := 1, qclass := 1 }],
    answer := ["example.com. 300 A 93.184.216.34"], ns := [], extra := [] }

/-- Concrete response envelope. -/
def resp0 : Response := { res := respMsg0, reason := "RESOLVED (upstream)" }

/-- Concrete UDP peer address. -/
def addr0 : Addr := .udp (some [192, 168, 0, 2]) 54321 ""

/-- Concrete peer address of a kind that is neither UDP nor TCP. -/
def addrO : Addr := .other "unix" "@dns-socket"

/-- Concrete server built from `cfg0`. -/
def srv0 : Server := (NewServer cfg0).1

/-- Concrete server whose pipeline head is already non-chainable. -/
def srvU : Server :=
  { udpServer := { addr := ":53", net := "udp" },
    tcpServer := { addr := ":53", net := "tcp" },
    queryResolver := .upstreamR u1 }

/-- Resolve semantics that always succeeds with `resp0`. -/
def semOk : Resolver → Request → Except String Response := fun _ _ => .ok resp0

/-- Resolve semantics that always fails. -/
def semErr : Resolver → Request → Except String Response :=
  fun _ _ => .error "all upstreams failed"

/-! ## Helper lemmas about the chain walk and the assembler -/

theorem walk_of_not_chainable : (r : Resolver) → isChainable r = false → walk r = [r]
  | .chained _ _ _ => by simp [isChainable]
  | .chainedNil _ _ => by simp [isChainable]
  | .upstreamR _ => by intro h; rfl
  | .parallelBest _ => by intro h; rfl

theorem walk_eq_spine_end : (r : Resolver) → walk r = chainSpine r ++ [chainEnd r]
  | .chained n c next => by
      have ih := walk_eq_spine_end next
      simp [walk, chainSpine, chainEnd, ih]
  | .chainedNil n c => by simp [walk, chainSpine, chainEnd]
  | .upstreamR u => by simp [walk, chainSpine, chainEnd]
  | .parallelBest rs => by simp [walk, chainSpine, chainEnd]

theorem chainSpine_chainable : (r : Resolver) → ∀ x ∈ chainSpine r, isChainable x = true
  | .chained n c next => by
      have ih := chainSpine_chainable next
      intro x hx
      rcases List.mem_cons.mp hx with h | h
      · rw [h]; rfl
      · exact ih x h
  | .chainedNil n c => by simp [chainSpine]
  | .upstreamR u => by simp [chainSpine]
  | .parallelBest rs => by simp [chainSpine]

theorem printConfigLoop_eq_flatMap :
    (r : Resolver) → printConfigLoop r = (walk r).flatMap stageLog
  | .chained n c next => by
      have ih := printConfigLoop_eq_flatMap next
      simp [printConfigLoop, walk, ih]
  | .chainedNil n c => by simp [printConfigLoop, walk]
  | .upstreamR u => by simp [printConfigLoop, walk]
  | .parallelBest rs => by simp [printConfigLoop, walk]

theorem createParallel_shape (us : List Upstream) :
    (∃ u, createParallelUpstreamResolver us = Resolver.upstreamR u) ∨
    createParallelUpstreamResolver us =
      Resolver.parallelBest (us.map NewUpstreamResolver) := by
  unfold createParallelUpstreamResolver
  split
  · exact Or.inl ⟨_, rfl⟩
  · exact Or.inr rfl

theorem createParallel_not_chainable (us : List Upstream) :
    isChainable (createParallelUpstreamResolver us) = false := by
  rcases createParallel_shape us with ⟨u, h⟩ | h <;> rw [h] <;> rfl

theorem createParallel_name (us : List Upstream) :
    resolverName (createParallelUpstreamResolver us) = "UpstreamResolver" ∨
    resolverName (createParallelUpstreamResolver us) = "ParallelBestResolver" := by
  rcases createParallel_shape us with ⟨u, h⟩ | h <;> rw [h]
  · exact Or.inl rfl
  · exact Or.inr rfl

theorem newServer_queryResolver (cfg : Config) :
    (NewServer cfg).1.queryResolver =
      .chained "ClientNamesResolver" cfg.clientLookup
        (.chained "QueryLoggingResolver" cfg.queryLog
          (.chained "ConditionalUpstreamResolver" cfg.conditional
            (.chained "CustomDNSResolver" cfg.customDNS
              (.chained "BlockingResolver" cfg.blocking
                (.chained "CachingResolver" []
                  (createParallelUpstreamResolver cfg.upstreamExternalResolvers)))))) :=
  rfl

theorem newServer_walk_names (cfg : Config) :
    (walk (NewServer cfg).1.queryResolver).map resolverName =
      ["ClientNamesResolver", "QueryLoggingResolver", "ConditionalUpstreamResolver",
       "CustomDNSResolver", "BlockingResolver", "CachingResolver",
       resolverName (createParallelUpstreamResolver cfg.upstreamExternalResolvers)] := by
  have hterm := walk_of_not_chainable _ (createParallel_not_chainable cfg.upstreamExternalResolvers)
  rw [newServer_queryResolver]
  simp [walk, hterm, resolverName]

/-! ## Claims -/

/-- C1: `NewServer` builds the stage chain in exactly the fixed order
client annotation, query logging, conditional upstream, custom DNS,
blocking, caching, then the terminal upstream stage (which is not
chainable), and exposes the head of this chain — the client
annotation stage — as `queryResolver`, the single entry point through
which `OnRequest` resolves every inbound request. -/
theorem C1_pipeline_fixed_order (cfg : Config)
    (sem : Resolver → Request → Except String Response) (addr : Addr) (request : Msg) :
    (walk (NewServer cfg).1.queryResolver).map resolverName =
      ["ClientNamesResolver", "QueryLoggingResolver", "ConditionalUpstreamResolver",
       "CustomDNSResolver", "BlockingResolver", "CachingResolver",
       resolverName (createParallelUpstreamResolver cfg.upstreamExternalResolvers)] ∧
    resolverName (NewServer cfg).1.queryResolver = "ClientNamesResolver" ∧
    isChainable (createParallelUpstreamResolver cfg.upstreamExternalResolvers) = false ∧
    Server.OnRequest sem (NewServer cfg).1 addr request =
      (match sem (NewServer cfg).1.queryResolver (mkRequest addr request) with
       | .error _ => WriteAction.handleFailed request
       | .ok response =>
           WriteAction.writeMsg { response.res with msgHdr :=
             { response.res.msgHdr with
                recursionAvailable := request.msgHdr.recursionDesired } }) :=
  ⟨newServer_walk_names cfg, rfl, createParallel_not_chainable _, rfl⟩

/-- C2 counterexample: with zero upstream targets configured,
`NewServer` does NOT fail: it returns a `nil` (`none`) error together
with a fully assembled server whose pipeline head is the client
annotation stage and whose chain has all seven stages. -/
theorem C2_counterexample_zero_upstreams :
    (NewServer cfg0).2 = none ∧
    resolverName (NewServer cfg0).1.queryResolver = "ClientNamesResolver" ∧
    (walk (NewServer cfg0).1.queryResolver).length = 7 :=
  ⟨rfl, rfl, rfl⟩

/-- C2 (amended): `NewServer` never returns an error — the error
component of its result is always `nil` — even when zero upstream
targets are configured; in that case it produces a usable server
whose terminal stage is a parallel best-resolver over an empty member
list. -/
theorem C2_construction_never_fails (cfg : Config) :
    (NewServer cfg).2 = none ∧
    (cfg.upstreamExternalResolvers = [] →
      chainEnd (NewServer cfg).1.queryResolver = Resolver.parallelBest []) := by
  refine ⟨rfl, fun h => ?_⟩
  rw [newServer_queryResolver]
  simp [chainEnd, h, createParallelUpstreamResolver, NewParallelBestResolver]

/-- C2 witness: the amended claim evaluated on the concrete
zero-upstream configuration `cfg0`. -/
theorem C2_construction_never_fails_witness :
    (NewServer cfg0).2 = none ∧
    chainEnd (NewServer cfg0).1.queryResolver = Resolver.parallelBest [] := by
  have h := C2_construction_never_fails cfg0
  exact ⟨h.1, h.2 rfl⟩

/-- C3: `createParallelUpstreamResolver` returns a single terminal
upstream resolver when the configured list has exactly one entry, and
a parallel best-resolver wrapping one upstream resolver per entry, in
list order, when it has more than one entry. -/
theorem C3_terminal_resolver_shape (us : List Upstream) :
    (∀ u, us = [u] → createParallelUpstreamResolver us = NewUpstreamResolver u) ∧
    (1 < us.length →
      createParallelUpstreamResolver us =
        NewParallelBestResolver (us.map NewUpstreamResolver)) := by
  constructor
  · rintro u rfl
    rfl
  · intro h
    unfold createParallelUpstreamResolver
    rw [dif_neg (by omega)]

/-- C3 witness: one entry yields the lone upstream resolver; two
entries yield the parallel best-resolver over both, in order. -/
theorem C3_terminal_resolver_shape_witness :
    createParallelUpstreamResolver [u1] = NewUpstreamResolver u1 ∧
    createParallelUpstreamResolver [u1, u2] =
      NewParallelBestResolver [NewUpstreamResolver u1, NewUpstreamResolver u2] := by
  have h1 := (C3_terminal_resolver_shape [u1]).1 u1 rfl
  have h2 := (C3_terminal_resolver_shape [u1, u2]).2 (by decide)
  exact ⟨h1, by rw [h2]; rfl⟩

/-- C4: whenever the pipeline's `Resolve` succeeds for an inbound
request, `OnRequest` sets the recursion-available flag of the
response message to the recursion-desired flag of the original query
and writes that message back to the peer. -/
theorem C4_success_mirrors_recursion_desired
    (sem : Resolver → Request → Except String Response) (s : Server)
    (addr : Addr) (request : Msg) (response : Response)
    (h : sem s.queryResolver (mkRequest addr request) = .ok response) :
    Server.OnRequest sem s addr request =
      .writeMsg { response.res with msgHdr :=
        { response.res.msgHdr with
           recursionAvailable := request.msgHdr.recursionDesired } } := by
  simp [Server.OnRequest, h]

/-- C4 witness: the theorem evaluated at the concrete server `srv0`,
UDP peer `addr0`, query `msg0` (recursion desired) and the
always-succeeding semantics `semOk`. -/
theorem C4_success_mirrors_recursion_desired_witness :
    semOk srv0.queryResolver (mkRequest addr0 msg0) = .ok resp0 ∧
    Server.OnRequest semOk srv0 addr0 msg0 =
      .writeMsg { resp0.res with msgHdr :=
        { resp0.res.msgHdr with
           recursionAvailable := msg0.msgHdr.recursionDesired } } :=
  ⟨rfl, C4_success_mirrors_recursion_desired semOk srv0 addr0 msg0 resp0 rfl⟩

/-- C5: whenever the pipeline's `Resolve` returns an error,
`OnRequest` writes the standard protocol-level failure indication for
the query back to the peer instead of a resolved answer; being a
total function into `WriteAction` it neither crashes nor closes the
connection. -/
theorem C5_error_writes_protocol_failure
    (sem : Resolver → Request → Except String Response) (s : Server)
    (addr : Addr) (request : Msg) (e : String)
    (h : sem s.queryResolver (mkRequest addr request) = .error e) :
    Server.OnRequest sem s addr request = .handleFailed request := by
  simp [Server.OnRequest, h]

/-- C5 witness: the theorem evaluated at `srv0`, `addr0`, `msg0` and
the always-failing semantics `semErr`. -/
theorem C5_error_writes_protocol_failure_witness :
    semErr srv0.queryResolver (mkRequest addr0 msg0) = .error "all upstreams failed" ∧
    Server.OnRequest semErr srv0 addr0 msg0 = .handleFailed msg0 :=
  ⟨rfl, C5_error_writes_protocol_failure semErr srv0 addr0 msg0 "all upstreams failed" rfl⟩

/-- C8: for a successfully resolved request the only field of the
resolved message that the boundary layer modifies before transmission
is the recursion-available flag; every other header field and every
other section of the message returned by the pipeline is written to
the peer unchanged. -/
theorem C8_only_recursion_available_modified
    (sem : Resolver → Request → Except String Response) (s : Server)
    (addr : Addr) (request : Msg) (response : Response)
    (h : sem s.queryResolver (mkRequest addr request) = .ok response) :
    ∃ m, Server.OnRequest sem s addr request = .writeMsg m ∧
      m.msgHdr.recursionAvailable = request.msgHdr.recursionDesired ∧
      m.msgHdr.id = response.res.msgHdr.id ∧
      m.msgHdr.response = response.res.msgHdr.response ∧
      m.msgHdr.opcode = response.res.msgHdr.opcode ∧
      m.msgHdr.authoritative = response.res.msgHdr.authoritative ∧
      m.msgHdr.truncated = response.res.msgHdr.truncated ∧
      m.msgHdr.recursionDesired = response.res.msgHdr.recursionDesired ∧
      m.msgHdr.zero = response.res.msgHdr.zero ∧
      m.msgHdr.authenticatedData = response.res.msgHdr.authenticatedData ∧
      m.msgHdr.checkingDisabled = response.res.msgHdr.checkingDisabled ∧
      m.msgHdr.rcode = response.res.msgHdr.rcode ∧
      m.compress = response.res.compress ∧
      m.question = response.res.question ∧
      m.answer = response.res.answer ∧
      m.ns = response.res.ns ∧
      m.extra = response.res.extra := by
  refine ⟨{ response.res with msgHdr :=
    { response.res.msgHdr with
       recursionAvailable := request.msgHdr.recursionDesired } }, ?_, ?_⟩
  · simp [Server.OnRequest, h]
  · simp

/-- C8 witness: the theorem evaluated at `srv0`, `addr0`, `msg0`,
`resp0` and `semOk`. -/
theorem C8_only_recursion_available_modified_witness :
    ∃ m, Server.OnRequest semOk srv0 addr0 msg0 = .writeMsg m ∧
      m.msgHdr.recursionAvailable = msg0.msgHdr.recursionDesired ∧
      m.msgHdr.id = resp0.res.msgHdr.id ∧
      m.msgHdr.response = resp0.res.msgHdr.response ∧
      m.msgHdr.opcode = resp0.res.msgHdr.opcode ∧
      m.msgHdr.authoritative = resp0.res.msgHdr.authoritative ∧
      m.msgHdr.truncated = resp0.res.msgHdr.truncated ∧
      m.msgHdr.recursionDesired = resp0.res.msgHdr.recursionDesired ∧
      m.msgHdr.zero = resp0.res.msgHdr.zero ∧
      m.msgHdr.authenticatedData = resp0.res.msgHdr.authenticatedData ∧
      m.msgHdr.checkingDisabled = resp0.res.msgHdr.checkingDisabled ∧
      m.msgHdr.rcode = resp0.res.msgHdr.rcode ∧
      m.compress = resp0.res.compress ∧
      m.question = resp0.res.question ∧
      m.answer = resp0.res.answer ∧
      m.ns = resp0.res.ns ∧
      m.extra = resp0.res.extra :=
  C8_only_recursion_available_modified semOk srv0 addr0 msg0 resp0 rfl

theorem chainEnd_stops :
    (r : Resolver) → isChainable (chainEnd r) = false ∨ GetNext (chainEnd r) = none
  | .chained _ _ next => chainEnd_stops next
  | .chainedNil _ _ => Or.inr rfl
  | .upstreamR _ => Or.inl rfl
  | .parallelBest _ => Or.inl rfl

/-- C6: `printConfiguration` walks the chain from the head toward the
tail, logging each visited stage's banner and `Configuration()`
lines; the visited stages are the chainable prefix of the chain
followed by exactly one final stage, at which the walk stops because
that stage is not chain-introspectable or has no successor; the walk
(a total function producing a finite log) terminates for every chain,
and a head that is already non-chainable is the only stage visited. -/
theorem C6_printConfiguration_chain_walk (s : Server) :
    printConfiguration s =
      "current configuration:" :: (walk s.queryResolver).flatMap stageLog ∧
    walk s.queryResolver = chainSpine s.queryResolver ++ [chainEnd s.queryResolver] ∧
    (∀ x ∈ chainSpine s.queryResolver, isChainable x = true) ∧
    (isChainable (chainEnd s.queryResolver) = false ∨
      GetNext (chainEnd s.queryResolver) = none) ∧
    (isChainable s.queryResolver = false → walk s.queryResolver = [s.queryResolver]) := by
  refine ⟨?_, walk_eq_spine_end _, chainSpine_chainable _, chainEnd_stops _,
    walk_of_not_chainable _⟩
  unfold printConfiguration
  rw [printConfigLoop_eq_flatMap]

/-- C6 witness: the theorem evaluated on a server whose pipeline head
is already a non-chainable upstream resolver — the walk visits only
the head and the printed log is the banner of that one stage. -/
theorem C6_printConfiguration_chain_walk_witness :
    printConfiguration srvU =
      ["current configuration:", "-> resolver: UpstreamResolver"] ∧
    walk srvU.queryResolver = [srvU.queryResolver] := by
  have h := C6_printConfiguration_chain_walk srvU
  refine ⟨?_, h.2.2.2.2 rfl⟩
  rw [h.1]
  rfl

/-- C7: during assembly `NewServer` issues exactly one `Next` call
per chainable stage — the six receivers are pairwise distinct and are
exactly the six chainable stages in chain order — and the assembled
chain is a simple acyclic sequence: following successor links from
the head, every stage name appears at most once. -/
theorem C7_chain_simple_acyclic (cfg : Config) :
    (newServerNextCalls.map Prod.fst).Nodup ∧
    newServerNextCalls.map Prod.fst =
      ["ClientNamesResolver", "QueryLoggingResolver", "ConditionalUpstreamResolver",
       "CustomDNSResolver", "BlockingResolver", "CachingResolver"] ∧
    ((walk (NewServer cfg).1.queryResolver).map resolverName).Nodup := by
  refine ⟨by decide, by decide, ?_⟩
  rw [newServer_walk_names]
  rcases createParallel_name cfg.upstreamExternalResolvers with h | h <;> rw [h] <;> decide

/-- C9: the `Request` that `OnRequest` hands to the pipeline carries
the client IP derived from the transport-level peer address — the IP
field of a UDP peer address, the IP field of a TCP peer address — and
`OnRequest` resolves exactly that request through the pipeline
head. -/
theorem C9_clientIP_from_transport_peer (addr : Addr) (request : Msg) :
    (mkRequest addr request).clientIP = resolveClientIP addr ∧
    (∀ ip port zone, addr = Addr.udp ip port zone →
      (mkRequest addr request).clientIP = ip) ∧
    (∀ ip port zone, addr = Addr.tcp ip port zone →
      (mkRequest addr request).clientIP = ip) ∧
    (∀ (sem : Resolver → Request → Except String Response) (s : Server),
      Server.OnRequest sem s addr request =
        (match sem s.queryResolver (mkRequest addr request) with
         | .error _ => WriteAction.handleFailed request
         | .ok response =>
             WriteAction.writeMsg { response.res with msgHdr :=
               { response.res.msgHdr with
                  recursionAvailable := request.msgHdr.recursionDesired } })) := by
  refine ⟨rfl, ?_, ?_, fun sem s => rfl⟩
  · rintro ip port zone rfl
    rfl
  · rintro ip port zone rfl
    rfl

/-- C9 witness: the theorem evaluated at a concrete UDP peer address
and at a concrete TCP peer address. -/
theorem C9_clientIP_from_transport_peer_witness :
    (mkRequest addr0 msg0).clientIP = some [192, 168, 0, 2] ∧
    (mkRequest (Addr.tcp (some [10, 0, 0, 7]) 853 "") msg0).clientIP =
      some [10, 0, 0, 7] := by
  have h1 := (C9_clientIP_from_transport_peer addr0 msg0).2.1
    (some [192, 168, 0, 2]) 54321 "" rfl
  have h2 := (C9_clientIP_from_transport_peer (Addr.tcp (some [10, 0, 0, 7]) 853 "") msg0).2.2.1
    (some [10, 0, 0, 7]) 853 "" rfl
  exact ⟨h1, h2⟩

/-- C10: for a peer address that is neither a UDP nor a TCP address,
`resolveClientIP` returns the absent (`nil`) client IP, and
`OnRequest` still constructs the request with that absent IP and
invokes the pipeline on it — writing the resolved answer on success
and the standard failure indication on error — rather than rejecting
the query. -/
theorem C10_unknown_addr_still_resolves (network a : String) (request : Msg) :
    resolveClientIP (Addr.other network a) = none ∧
    (mkRequest (Addr.other network a) request).clientIP = none ∧
    (∀ (sem : Resolver → Request → Except String Response) (s : Server) response,
      sem s.queryResolver (mkRequest (Addr.other network a) request) = .ok response →
      Server.OnRequest sem s (Addr.other network a) request =
        .writeMsg { response.res with msgHdr :=
          { response.res.msgHdr with
             recursionAvailable := request.msgHdr.recursionDesired } }) ∧
    (∀ (sem : Resolver → Request → Except String Response) (s : Server) e,
      sem s.queryResolver (mkRequest (Addr.other network a) request) = .error e →
      Server.OnRequest sem s (Addr.other network a) request = .handleFailed request) := by
  refine ⟨rfl, rfl, ?_, ?_⟩
  · intro sem s response h
    simp [Server.OnRequest, h]
  · intro sem s e h
    simp [Server.OnRequest, h]

/-- C10 witness: the theorem evaluated at the concrete non-UDP,
non-TCP peer address `addrO` with the succeeding semantics `semOk`:
the client IP is absent and the pipeline's answer is still written. -/
theorem C10_unknown_addr_still_resolves_witness :
    resolveClientIP addrO = none ∧
    (mkRequest addrO msg0).clientIP = none ∧
    Server.OnRequest semOk srv0 addrO msg0 =
      .writeMsg { resp0.res with msgHdr :=
        { resp0.res.msgHdr with
           recursionAvailable := msg0.msgHdr.recursionDesired } } := by
  have h := C10_unknown_addr_still_resolves "unix" "@dns-socket" msg0
  exact ⟨h.1, h.2.1, h.2.2.1 semOk srv0 resp0 rfl⟩

end Blocky
